import Mathlib

/-!
Verification of the goal tracking and exercise progression engine of the
vim-tutorial repository, shallowly embedded from `src/vim_state.rs` and
`src/continuous_session.rs`.

Conventions of the embedding:
* Rust `usize` values appearing as cursor coordinates and indices are
  modelled as `Nat`; the one place where a signed `i32` is cast to `usize`
  is modelled with explicit wrap-around arithmetic on `Int`.
* Rust `HashMap<String, String>` is modelled as an association list with
  `List.lookup` for `get`.
* `serde_json::Value` is modelled by the inductive `Json`; its accessor
  methods (`as_array`, `as_str`, `as_u64`, `as_object`) and the panicking
  indexing operations of `Vec` and `serde_json::Map` are modelled
  explicitly (a panic is a distinguished outcome, not a value).
* The fallible Rust functions returning `anyhow::Result` are modelled with
  explicit result inductives carrying the error message.
-/

/-- `VimMode` from `src/vim_state.rs` (lines 13-22). `OperatorPending`
carries the pending operator's name; derived `PartialEq` in Rust is
structural equality, modelled by the derived `DecidableEq`. -/
inductive VimMode where
  | Normal
  | Insert
  | Visual
  | VisualLine
  | VisualBlock
  | OperatorPending (op : String)
  | Command
deriving DecidableEq, Repr

/-- `VimState` from `src/vim_state.rs` (lines 3-11). -/
structure VimState where
  mode : VimMode
  cursor_line : Nat
  cursor_col : Nat
  operator : Option String
  buffer_content : List String
  registers : List (String × String)
deriving DecidableEq, Repr

/-- `GoalType` from `src/vim_state.rs` (lines 39-46). -/
inductive GoalType where
  | Position (line col : Nat)
  | Mode (m : VimMode)
  | TextContent (line : Nat) (expected : String)
  | BufferChange
  | RegisterContent (register expected : String)
deriving DecidableEq, Repr

/-- `Goal` from `src/vim_state.rs` (lines 48-53). -/
structure Goal where
  goal_type : GoalType
  description : String
deriving DecidableEq, Repr

/-- `GoalDetector::check_goal` from `src/vim_state.rs` (lines 62-89).
`GoalDetector` is a unit struct, so the detector is embedded as a plain
function. -/
def check_goal (goal : Goal) (current_state : VimState) : Bool :=
  match goal.goal_type with
  | GoalType.Position line col =>
      current_state.cursor_line == line && current_state.cursor_col == col
  | GoalType.Mode expected_mode => decide (current_state.mode = expected_mode)
  | GoalType.TextContent line expected =>
      match current_state.buffer_content.get? line with
      | some actual_line => actual_line == expected
      | none => false
  | GoalType.BufferChange => true
  | GoalType.RegisterContent register expected =>
      match current_state.registers.lookup register with
      | some actual_content => actual_content == expected
      | none => false

/-- `VimMode::from_vim_mode` from `src/vim_state.rs` (lines 24-37),
with the Rust `match` arms translated in order into an `if`-chain;
the `mode_str.contains('\u{16}')` guard is the check for the Ctrl-V
character (code point 22). -/
def from_vim_mode (mode : String) (mode_detailed : String)
    (operator : Option String) : VimMode :=
  if mode = "n" ∧ mode_detailed = "no" then
    VimMode.OperatorPending (operator.getD "")
  else if mode = "n" then VimMode.Normal
  else if mode = "i" then VimMode.Insert
  else if mode = "v" then VimMode.Visual
  else if mode = "V" then VimMode.VisualLine
  else if mode.data.contains (Char.ofNat 22) then VimMode.VisualBlock
  else if mode = "c" then VimMode.Command
  else VimMode.Normal

/-- Claim C2: for every `Position {line, col}` goal and every editor state,
`check_goal` returns `true` iff the state's cursor line and column both
equal the goal's coordinates exactly; every other cursor value (including
any off-by-one in either coordinate) yields `false`. -/
theorem position_goal_exact_match (line col : Nat) (d : String) (s : VimState) :
    check_goal ⟨GoalType.Position line col, d⟩ s = true ↔
      s.cursor_line = line ∧ s.cursor_col = col := by
  simp [check_goal]

/-- Claim C3: mode-goal satisfaction is structural equality of modes
including the carried operator payload: satisfaction holds iff the state's
mode equals the goal's mode; an `OperatorPending "d"` goal is false against
an `OperatorPending "y"` state and true against an `OperatorPending "d"`
state; and `OperatorPending x` never equals `Normal`. -/
theorem mode_goal_structural_equality :
    (∀ (m : VimMode) (d : String) (s : VimState),
        check_goal ⟨GoalType.Mode m, d⟩ s = true ↔ s.mode = m) ∧
    (∀ (d : String) (s : VimState), s.mode = VimMode.OperatorPending "y" →
        check_goal ⟨GoalType.Mode (VimMode.OperatorPending "d"), d⟩ s = false) ∧
    (∀ (d : String) (s : VimState), s.mode = VimMode.OperatorPending "d" →
        check_goal ⟨GoalType.Mode (VimMode.OperatorPending "d"), d⟩ s = true) ∧
    (∀ x : String, VimMode.OperatorPending x ≠ VimMode.Normal) := by
  refine ⟨?_, ?_, ?_, ?_⟩
  · intro m d s
    simp [check_goal]
  · intro d s hs
    simp [check_goal, hs]
  · intro d s hs
    simp [check_goal, hs]
  · intro x h
    cases h

/-- Witness for C3: a concrete state in `OperatorPending "y"` mode does not
satisfy the `OperatorPending "d"` mode goal. -/
theorem mode_goal_structural_equality_witness :
    check_goal ⟨GoalType.Mode (VimMode.OperatorPending "d"), "press d"⟩
      ⟨VimMode.OperatorPending "y", 0, 0, none, [""], []⟩ = false :=
  mode_goal_structural_equality.2.1 "press d"
    ⟨VimMode.OperatorPending "y", 0, 0, none, [""], []⟩ rfl

/-- Claim C4: a `BufferChange` goal evaluates to `true` against every
editor state; `check_goal` is a total function, so the evaluation never
raises an error. -/
theorem buffer_change_always_true (d : String) (s : VimState) :
    check_goal ⟨GoalType.BufferChange, d⟩ s = true := by
  simp [check_goal]

/-- Claim C7: a `TextContent {line, expected}` goal is satisfied iff buffer
line `line` exists and equals `expected` exactly; when `line` is out of
range of the buffer the result is `false` (the lookup is by the total
`get?`, so no error or panic occurs). -/
theorem text_goal_out_of_range_false :
    (∀ (line : Nat) (expected d : String) (s : VimState),
        check_goal ⟨GoalType.TextContent line expected, d⟩ s = true ↔
          s.buffer_content.get? line = some expected) ∧
    (∀ (line : Nat) (expected d : String) (s : VimState),
        s.buffer_content.length ≤ line →
        check_goal ⟨GoalType.TextContent line expected, d⟩ s = false) := by
  constructor
  · intro line expected d s
    simp only [check_goal]
    cases h : s.buffer_content.get? line with
    | none => simp [h]
    | some actual => simp [h, beq_iff_eq]
  · intro line expected d s hlen
    simp only [check_goal]
    rw [List.get?_eq_none.mpr hlen]

/-- Witness for C7: a one-line buffer state does not satisfy a text goal
aimed at line 5. -/
theorem text_goal_out_of_range_false_witness :
    check_goal ⟨GoalType.TextContent 5 "hello", "check line"⟩
      ⟨VimMode.Normal, 0, 0, none, ["hello"], []⟩ = false :=
  text_goal_out_of_range_false.2 5 "hello" "check line"
    ⟨VimMode.Normal, 0, 0, none, ["hello"], []⟩ (by decide)

/-- Model of `serde_json::Value` as consumed by
`convert_goal_definition` in `src/continuous_session.rs`. Numbers are
modelled as integers (`as_u64` succeeds exactly on the non-negative
ones); objects are association lists with unique keys. -/
inductive Json where
  | null
  | bool (b : Bool)
  | num (n : Int)
  | str (s : String)
  | arr (elems : List Json)
  | obj (fields : List (String × Json))
deriving Repr

/-- `serde_json::Value::as_array` (restricted to the element list). -/
def Json.asArray : Json → Option (List Json)
  | Json.arr elems => some elems
  | _ => none

/-- `serde_json::Value::as_str`. -/
def Json.asStr : Json → Option String
  | Json.str s => some s
  | _ => none

/-- `serde_json::Value::as_u64`: `some` exactly on non-negative integer
numbers. -/
def Json.asU64 : Json → Option Nat
  | Json.num n => if 0 ≤ n then some n.toNat else none
  | _ => none

/-- `serde_json::Value::as_object` (restricted to the field list). -/
def Json.asObject : Json → Option (List (String × Json))
  | Json.obj fields => some fields
  | _ => none

/-- `ExerciseGoal` from `src/continuous_session.rs` (lines 40-47). -/
structure ExerciseGoal where
  goal_type : String
  target : Json
  description : String
  hint : Option String
deriving Repr

/-- `FlowType` from `src/continuous_session.rs` (lines 49-57). -/
inductive FlowType where
  | Sequential
  | AnyOrder
  | Parallel
deriving DecidableEq, Repr

/-- `ContinuousExercise` from `src/continuous_session.rs` (lines 31-38). -/
structure ContinuousExercise where
  title : String
  description : String
  sample_code : List String
  goals : List ExerciseGoal
  flow_type : FlowType
deriving Repr

/-- Outcome of `convert_goal_definition`: `ok` models `Ok(goal)`, `error`
models an `anyhow::Error` returned through `?`, and `panicked` models an
out-of-bounds index panic (`Vec` indexing or `serde_json::Map` indexing on
a missing key), which aborts rather than returning. -/
inductive ConvertResult where
  | ok (g : Goal)
  | error (msg : String)
  | panicked
deriving Repr

/-- Rust `str::starts_with(pattern)` on the character lists of the two
strings. -/
def strStartsWith : List Char → List Char → Bool
  | [], _ => true
  | _ :: _, [] => false
  | p :: ps, c :: cs => p == c && strStartsWith ps cs

/-- `op.strip_prefix("operator_").unwrap_or("")` as used in
`convert_goal_definition`. -/
def stripOperatorTag (s : String) : String :=
  if strStartsWith "operator_".data s.data then String.mk (s.data.drop 9) else ""

/-- `convert_goal_definition` from `src/continuous_session.rs`
(lines 665-725). The Rust `match` on the kind string is translated arm by
arm; `target[0]` / `target[1]` are `Vec` indexing (panics out of bounds)
and `target["line"]` etc. are `serde_json::Map` indexing (panics when the
key is missing). -/
def convert_goal_definition (goal_def : ExerciseGoal) : ConvertResult :=
  if goal_def.goal_type = "position" then
    match goal_def.target.asArray with
    | none => ConvertResult.error "Position target must be an array"
    | some target =>
      match target.get? 0 with
      | none => ConvertResult.panicked
      | some t0 =>
        match target.get? 1 with
        | none => ConvertResult.panicked
        | some t1 =>
          ConvertResult.ok ⟨GoalType.Position (t0.asU64.getD 0) (t1.asU64.getD 0),
            goal_def.description⟩
  else if goal_def.goal_type = "mode" then
    match goal_def.target.asStr with
    | none => ConvertResult.error "Mode target must be a string"
    | some mode_str =>
      if mode_str = "normal" then
        ConvertResult.ok ⟨GoalType.Mode VimMode.Normal, goal_def.description⟩
      else if mode_str = "insert" then
        ConvertResult.ok ⟨GoalType.Mode VimMode.Insert, goal_def.description⟩
      else if mode_str = "visual" then
        ConvertResult.ok ⟨GoalType.Mode VimMode.Visual, goal_def.description⟩
      else if mode_str = "visual_line" then
        ConvertResult.ok ⟨GoalType.Mode VimMode.VisualLine, goal_def.description⟩
      else if mode_str = "visual_block" then
        ConvertResult.ok ⟨GoalType.Mode VimMode.VisualBlock, goal_def.description⟩
      else if mode_str = "command" then
        ConvertResult.ok ⟨GoalType.Mode VimMode.Command, goal_def.description⟩
      else if strStartsWith "operator_".data mode_str.data then
        ConvertResult.ok ⟨GoalType.Mode (VimMode.OperatorPending (stripOperatorTag mode_str)),
          goal_def.description⟩
      else ConvertResult.error ("Unknown mode: " ++ mode_str)
  else if goal_def.goal_type = "text" then
    match goal_def.target.asObject with
    | none => ConvertResult.error "Text target must be an object"
    | some target =>
      match target.lookup "line" with
      | none => ConvertResult.panicked
      | some jline =>
        match target.lookup "expected" with
        | none => ConvertResult.panicked
        | some jexpected =>
          ConvertResult.ok ⟨GoalType.TextContent (jline.asU64.getD 0) (jexpected.asStr.getD ""),
            goal_def.description⟩
  else if goal_def.goal_type = "register" then
    match goal_def.target.asObject with
    | none => ConvertResult.error "Register target must be an object"
    | some target =>
      match target.lookup "register" with
      | none => ConvertResult.panicked
      | some jreg =>
        match target.lookup "expected" with
        | none => ConvertResult.panicked
        | some jexpected =>
          ConvertResult.ok ⟨GoalType.RegisterContent (jreg.asStr.getD "") (jexpected.asStr.getD ""),
            goal_def.description⟩
  else if goal_def.goal_type = "buffer_change" then
    ConvertResult.ok ⟨GoalType.BufferChange, goal_def.description⟩
  else ConvertResult.error ("Unknown goal type: " ++ goal_def.goal_type)

/-- First character of a string, used to separate `operator_`-prefixed
mode targets from the literal mode names. -/
def headChar (s : String) : Option Char := s.data.head?

/-- A string of the form `"operator_" ++ x` starts with the character
`o`, so it differs from any string whose first character is not `o`. -/
theorem op_append_ne (x : String) (t : String) (h : headChar t ≠ some 'o') :
    ¬ ("operator_" ++ x = t) := fun heq =>
  h (heq ▸ (rfl : headChar ("operator_" ++ x) = some 'o'))

/-- A character list passing `strStartsWith p` is `p` followed by some
suffix. -/
theorem strStartsWith_exists (p : List Char) :
    ∀ s, strStartsWith p s = true → ∃ t, s = p ++ t := by
  induction p with
  | nil => exact fun s _ => ⟨s, rfl⟩
  | cons a as ih =>
    intro s h
    cases s with
    | nil => simp [strStartsWith] at h
    | cons b bs =>
      simp only [strStartsWith, Bool.and_eq_true, beq_iff_eq] at h
      obtain ⟨rfl, h2⟩ := h
      obtain ⟨t, rfl⟩ := ih bs h2
      exact ⟨t, rfl⟩

/-- If `"operator_"` is a character-list prefix of `s`, then `s` is
literally `"operator_"` followed by some suffix. -/
theorem eq_op_append_of_startsWith (s : String)
    (h : strStartsWith "operator_".data s.data = true) :
    ∃ x : String, s = "operator_" ++ x := by
  obtain ⟨t, ht⟩ := strStartsWith_exists "operator_".data s.data h
  refine ⟨String.mk t, ?_⟩
  cases s with
  | mk data =>
    simp only at ht
    rw [ht]
    rfl

/-- Claim C5: compiling a goal definition with kind `"mode"` maps the six
recognized literal target strings to the corresponding modes, maps every
target of the form `operator_<X>` to `Mode (OperatorPending X)`, and fails
with an unknown-mode error for every other string. -/
theorem mode_conversion_mapping (s d : String) (h : Option String) :
    (s = "normal" → convert_goal_definition ⟨"mode", Json.str s, d, h⟩ =
        ConvertResult.ok ⟨GoalType.Mode VimMode.Normal, d⟩) ∧
    (s = "insert" → convert_goal_definition ⟨"mode", Json.str s, d, h⟩ =
        ConvertResult.ok ⟨GoalType.Mode VimMode.Insert, d⟩) ∧
    (s = "visual" → convert_goal_definition ⟨"mode", Json.str s, d, h⟩ =
        ConvertResult.ok ⟨GoalType.Mode VimMode.Visual, d⟩) ∧
    (s = "visual_line" → convert_goal_definition ⟨"mode", Json.str s, d, h⟩ =
        ConvertResult.ok ⟨GoalType.Mode VimMode.VisualLine, d⟩) ∧
    (s = "visual_block" → convert_goal_definition ⟨"mode", Json.str s, d, h⟩ =
        ConvertResult.ok ⟨GoalType.Mode VimMode.VisualBlock, d⟩) ∧
    (s = "command" → convert_goal_definition ⟨"mode", Json.str s, d, h⟩ =
        ConvertResult.ok ⟨GoalType.Mode VimMode.Command, d⟩) ∧
    (∀ x : String, s = "operator_" ++ x →
        convert_goal_definition ⟨"mode", Json.str s, d, h⟩ =
          ConvertResult.ok ⟨GoalType.Mode (VimMode.OperatorPending x), d⟩) ∧
    (s ≠ "normal" → s ≠ "insert" → s ≠ "visual" → s ≠ "visual_line" →
        s ≠ "visual_block" → s ≠ "command" →
        (¬ ∃ x : String, s = "operator_" ++ x) →
        convert_goal_definition ⟨"mode", Json.str s, d, h⟩ =
          ConvertResult.error ("Unknown mode: " ++ s)) := by
  refine ⟨?_, ?_, ?_, ?_, ?_, ?_, ?_, ?_⟩
  · rintro rfl; rfl
  · rintro rfl; rfl
  · rintro rfl; rfl
  · rintro rfl; rfl
  · rintro rfl; rfl
  · rintro rfl; rfl
  · rintro x rfl
    cases x with
    | mk xd => rfl
  · intro h1 h2 h3 h4 h5 h6 h7
    have hg : strStartsWith "operator_".data s.data = false := by
      cases hb : strStartsWith "operator_".data s.data with
      | true => exact absurd (eq_op_append_of_startsWith s hb) h7
      | false => rfl
    simp [convert_goal_definition, Json.asStr, h1, h2, h3, h4, h5, h6, hg]

/-- Witness for C5: compiling `{kind: "mode", target: "operator_d"}`
yields `Mode (OperatorPending "d")`. -/
theorem mode_conversion_mapping_witness :
    convert_goal_definition ⟨"mode", Json.str "operator_d", "press d", none⟩ =
      ConvertResult.ok ⟨GoalType.Mode (VimMode.OperatorPending "d"), "press d"⟩ :=
  (mode_conversion_mapping "operator_d" "press d" none).2.2.2.2.2.2.1 "d" rfl

/-- C6 counterexample: compiling a `"position"` goal whose target is the
empty JSON array does not default the missing entries to 0 — it hits the
out-of-bounds `Vec` index `target[0]` and panics; a one-element array
panics on `target[1]` likewise, so compilation is not total on arrays. -/
theorem position_conversion_panics_cex :
    convert_goal_definition ⟨"position", Json.arr [], "move", none⟩ =
      ConvertResult.panicked ∧
    convert_goal_definition ⟨"position", Json.arr [Json.num 1], "move", none⟩ =
      ConvertResult.panicked := ⟨rfl, rfl⟩

/-- Claim C6 as amended: for a `"position"` goal definition whose target
is a JSON array with at least two elements, compilation succeeds and
produces `Position {line, col}` from the first two entries, with each
non-numeric (or negative) entry coerced to 0; arrays with fewer than two
elements instead panic on the out-of-bounds index. -/
theorem position_conversion_amended (xs : List Json) (d : String)
    (h : Option String) (hlen : 2 ≤ xs.length) :
    convert_goal_definition ⟨"position", Json.arr xs, d, h⟩ =
      ConvertResult.ok ⟨GoalType.Position ((xs.getD 0 Json.null).asU64.getD 0)
        ((xs.getD 1 Json.null).asU64.getD 0), d⟩ := by
  cases xs with
  | nil => simp at hlen
  | cons t0 rest =>
    cases rest with
    | nil => simp at hlen
    | cons t1 rest2 => rfl

/-- Witness for C6 (amended): compiling `{kind: "position", target: [1, 3]}`
yields `Position {line: 1, col: 3}`. -/
theorem position_conversion_amended_witness :
    convert_goal_definition ⟨"position", Json.arr [Json.num 1, Json.num 3], "move", none⟩ =
      ConvertResult.ok ⟨GoalType.Position 1 3, "move"⟩ :=
  (position_conversion_amended [Json.num 1, Json.num 3] "move" none (by decide)).trans rfl

/-- Splitting a character list on a separator character, modelling Rust's
`str::split(",")` as used on the status line. -/
def splitOnChar (sep : Char) : List Char → List (List Char)
  | [] => [[]]
  | c :: cs =>
    if c = sep then [] :: splitOnChar sep cs
    else
      match splitOnChar sep cs with
      | [] => [[c]]
      | h :: t => (c :: h) :: t

/-- Strip one trailing carriage return, as Rust's `str::lines` does. -/
def dropTrailingCR (l : List Char) : List Char :=
  if l.getLast? = some (Char.ofNat 13) then l.dropLast else l

/-- Rust's `str::lines`: split on the newline character, drop the final
empty piece produced by a trailing newline, and trim a trailing carriage
return from each line. -/
def rustLines (cs : List Char) : List (List Char) :=
  let parts := splitOnChar (Char.ofNat 10) cs
  let trimmed :=
    match parts.getLast? with
    | some [] => parts.dropLast
    | _ => parts
  trimmed.map dropTrailingCR

/-- Decimal digit value of a character, `none` for non-digits. -/
def digitVal (c : Char) : Option Nat :=
  if 48 ≤ c.toNat ∧ c.toNat ≤ 57 then some (c.toNat - 48) else none

/-- Accumulating decimal parse; fails on the first non-digit. -/
def parseNatAux : Nat → List Char → Option Nat
  | acc, [] => some acc
  | acc, c :: cs =>
    match digitVal c with
    | some d => parseNatAux (acc * 10 + d) cs
    | none => none

/-- Parse a non-empty all-digit character list as a natural number. -/
def parseNatDigits : List Char → Option Nat
  | [] => none
  | cs => parseNatAux 0 cs

/-- Rust `str::parse::<i32>()`: an optional sign followed by at least one
digit, and the value must fit in a 32-bit signed integer. -/
def parseI32Opt (cs : List Char) : Option Int :=
  let signed : Option Int :=
    match cs with
    | '-' :: rest => (parseNatDigits rest).map (fun n => -(n : Int))
    | '+' :: rest => (parseNatDigits rest).map (fun n => (n : Int))
    | _ => (parseNatDigits cs).map (fun n => (n : Int))
  match signed with
  | some v => if -(2 ^ 31) ≤ v ∧ v < 2 ^ 31 then some v else none
  | none => none

/-- `value.parse::<i32>().unwrap_or(dflt)`. -/
def parseI32D (cs : List Char) (dflt : Int) : Int := (parseI32Opt cs).getD dflt

/-- Wrap-around of an integer into the `i32` range (release-mode Rust
arithmetic). -/
def i32Wrap (n : Int) : Int := (n + 2 ^ 31) % 2 ^ 32 - 2 ^ 31

/-- The Rust cast `as usize` applied to an `i32` value: sign-extension
reinterpreted as an unsigned 64-bit integer. -/
def i32ToUsize (n : Int) : Nat := (n % 2 ^ 64).toNat

/-- One step of the part-parsing loop in `read_vim_state_from_file`
(lines 527-543 of `src/continuous_session.rs`): the accumulator is
`(line_num, col_num, mode_str, mode_detailed)` and each comma-separated
part updates the field whose tag it carries. -/
def applyPart (acc : Int × Int × List Char × List Char) (part : List Char) :
    Int × Int × List Char × List Char :=
  if strStartsWith "LINE:".data part then
    (parseI32D (part.drop 5) 1, acc.2.1, acc.2.2.1, acc.2.2.2)
  else if strStartsWith "COL:".data part then
    (acc.1, parseI32D (part.drop 4) 1, acc.2.2.1, acc.2.2.2)
  else if strStartsWith "MODE:".data part then
    (acc.1, acc.2.1, part.drop 5, acc.2.2.2)
  else if strStartsWith "DETAILED:".data part then
    (acc.1, acc.2.1, acc.2.2.1, part.drop 9)
  else acc

/-- Left fold of `applyPart` over the comma-separated parts, in order. -/
def statusFields (acc : Int × Int × List Char × List Char) :
    List (List Char) → Int × Int × List Char × List Char
  | [] => acc
  | p :: ps => statusFields (applyPart acc p) ps

/-- The default snapshot built by `read_vim_state_from_file` when the
status file cannot be read (lines 509-516 of `src/continuous_session.rs`):
cursor at origin, Normal mode, a single empty buffer line, no registers. -/
def defaultVimState : VimState :=
  ⟨VimMode.Normal, 0, 0, none, [""], []⟩

/-- `read_vim_state_from_file` from `src/continuous_session.rs`
(lines 497-560). The input is the result of `fs::read_to_string` on the
status file: `none` models a read error. The function scans for the first
line starting with `LINE:`, folds its comma-separated parts into the
`(line_num, col_num, mode_str, mode_detailed)` accumulator (initialized to
`(1, 1, "n", "n")`), converts the 1-based coordinates to 0-based with an
`i32`-to-`usize` cast, and always produces a one-empty-line buffer and an
empty register map. It returns a state in every case — no error is ever
propagated to the caller. -/
def read_vim_state_from_file : Option String → VimState
  | none => defaultVimState
  | some content =>
    let init : Int × Int × List Char × List Char := (1, 1, ['n'], ['n'])
    let parsed :=
      match (rustLines content.data).find? (fun l => strStartsWith "LINE:".data l) with
      | none => init
      | some l => statusFields init (splitOnChar ',' l)
    { mode := from_vim_mode (String.mk parsed.2.2.1) (String.mk parsed.2.2.2) none
      cursor_line := i32ToUsize (i32Wrap (parsed.1 - 1))
      cursor_col := i32ToUsize (i32Wrap (parsed.2.1 - 1))
      operator := none
      buffer_content := [""]
      registers := [] }

/-- Modelled from the spec's words (claim C8): on sampler failure the
monitoring loop is claimed to substitute the last-known-good snapshot or,
if none exists yet, the default snapshot. Stated for comparison with the
code's actual recovery behavior. -/
def recovery_spec (last_state : Option VimState) : VimState :=
  match last_state with
  | some s => s
  | none => defaultVimState

/-- Every sampled state has a one-empty-line buffer. -/
theorem read_buffer_eq (content : Option String) :
    (read_vim_state_from_file content).buffer_content = [""] := by
  cases content <;> rfl

/-- Every sampled state has an empty register map. -/
theorem read_registers_eq (content : Option String) :
    (read_vim_state_from_file content).registers = [] := by
  cases content <;> rfl

/-- C8 counterexample: with a last-known-good snapshot present (cursor at
(5,7), Insert mode, non-empty buffer), a failed sample is still replaced
by the default snapshot, not by the last-known-good snapshot the claim
prescribes. -/
theorem sampler_recovery_ignores_last_state_cex :
    read_vim_state_from_file none ≠
      recovery_spec (some ⟨VimMode.Insert, 5, 7, none, ["abc"], []⟩) := by
  decide

/-- Claim C8 as amended: when the state sampler fails (missing or
unreadable status file), the monitoring loop's reader substitutes the
default snapshot — cursor at origin, Normal mode, a single empty buffer
line, no registers — always, even when a last-known-good snapshot exists;
the reader is total, so the sampler error is never propagated to the
caller as an error. -/
theorem sampler_failure_yields_default :
    read_vim_state_from_file none = defaultVimState ∧
    defaultVimState.cursor_line = 0 ∧ defaultVimState.cursor_col = 0 ∧
    defaultVimState.mode = VimMode.Normal ∧
    defaultVimState.buffer_content = [""] ∧ defaultVimState.registers = [] :=
  ⟨rfl, rfl, rfl, rfl, rfl, rfl⟩

/-- Claim C10: every state produced by the file-based sampler has an empty
register map and a buffer of exactly one empty line, so during monitoring
a register goal with a non-empty expected string is never satisfied, and a
text goal is satisfied only when it aims at line 0 with the empty string
as expected content. -/
theorem sampler_state_degenerate :
    (∀ content : Option String,
        (read_vim_state_from_file content).buffer_content = [""] ∧
        (read_vim_state_from_file content).registers = []) ∧
    (∀ (content : Option String) (reg expected d : String), expected ≠ "" →
        check_goal ⟨GoalType.RegisterContent reg expected, d⟩
          (read_vim_state_from_file content) = false) ∧
    (∀ (content : Option String) (line : Nat) (expected d : String),
        check_goal ⟨GoalType.TextContent line expected, d⟩
          (read_vim_state_from_file content) = true →
        line = 0 ∧ expected = "") := by
  refine ⟨fun content => ⟨read_buffer_eq content, read_registers_eq content⟩, ?_, ?_⟩
  · intro content reg expected d _
    simp only [check_goal, read_registers_eq content, List.lookup]
  · intro content line expected d hcheck
    simp only [check_goal, read_buffer_eq content] at hcheck
    cases line with
    | zero =>
      simp only [List.get?] at hcheck
      exact ⟨rfl, (beq_iff_eq.mp hcheck).symm⟩
    | succ n =>
      simp only [List.get?] at hcheck
      cases hcheck

/-- Witness for C10: during monitoring, a register goal expecting yanked
text is unsatisfied even though the sampler read succeeded. -/
theorem sampler_state_degenerate_witness :
    check_goal ⟨GoalType.RegisterContent "0" "yanked", "check register"⟩
      (read_vim_state_from_file (some "LINE:1,COL:1,MODE:n,DETAILED:n")) = false :=
  sampler_state_degenerate.2.1 (some "LINE:1,COL:1,MODE:n,DETAILED:n")
    "0" "yanked" "check register" (by decide)

/-- Progression state owned by the session during `monitor_progress`:
`current_goal_index` and `completed_goals` from `ContinuousVimSession`
(`src/continuous_session.rs` lines 59-68), initialized by
`start_exercise` (lines 117-119). -/
structure LoopState where
  current_goal_index : Nat
  completed_goals : List Bool
deriving DecidableEq, Repr

/-- Outcome of one iteration of the monitoring loop body: `ok st done`
continues (or, when `done = true`, returns `Completed`); `failed` models
an `anyhow::Error` propagated through `?`; `panicked` models a panic
inside goal conversion. -/
inductive StepOutcome where
  | ok (st : LoopState) (done : Bool)
  | failed (st : LoopState) (msg : String)
  | panicked
deriving Repr

/-- One iteration of the body of `monitor_progress`
(`src/continuous_session.rs` lines 378-440) on one sampled state. The
current goal (only — the flow type is never consulted) is converted and
checked; on satisfaction the completion flag is set and the index is
incremented; reaching the end of the goal list reports completion, and
otherwise the instruction pane is updated, which fails when no pane id
was recorded (`update_instruction_pane`, lines 446-495). -/
def monitorStep (instruction_pane_id : Option String) (goals : List ExerciseGoal)
    (st : LoopState) (current_state : VimState) : StepOutcome :=
  if h : st.current_goal_index < goals.length then
    match convert_goal_definition (goals.get ⟨st.current_goal_index, h⟩) with
    | ConvertResult.panicked => StepOutcome.panicked
    | ConvertResult.error e => StepOutcome.failed st e
    | ConvertResult.ok goal =>
      if check_goal goal current_state then
        if goals.length ≤ st.current_goal_index + 1 then
          StepOutcome.ok
            ⟨st.current_goal_index + 1, st.completed_goals.set st.current_goal_index true⟩
            true
        else
          match instruction_pane_id with
          | none =>
              StepOutcome.failed
                ⟨st.current_goal_index + 1, st.completed_goals.set st.current_goal_index true⟩
                "instruction pane id is not set"
          | some _ =>
              StepOutcome.ok
                ⟨st.current_goal_index + 1, st.completed_goals.set st.current_goal_index true⟩
                false
      else StepOutcome.ok st false
  else StepOutcome.ok st false

/-- A satisfied-goal event: the active goal exists, converts successfully,
and is satisfied by the sample. -/
def satisfiedGoalEvent (goals : List ExerciseGoal) (st : LoopState)
    (current_state : VimState) : Bool :=
  if h : st.current_goal_index < goals.length then
    match convert_goal_definition (goals.get ⟨st.current_goal_index, h⟩) with
    | ConvertResult.ok goal => check_goal goal current_state
    | _ => false
  else false

/-- Result of running the monitoring loop over a finite list of status
file reads: `completed` models `Ok(ExerciseResult::Completed)`,
`incomplete` models leaving the loop by cancellation
(`Ok(ExerciseResult::Incomplete)`). -/
inductive MonitorOutcome where
  | completed
  | incomplete (st : LoopState)
  | failed (st : LoopState) (msg : String)
  | panicked
deriving Repr

/-- The `while` loop of `monitor_progress`, driven by the finite list of
status-file read results (one per iteration); exhausting the list models
cancellation via `monitoring_active`. -/
def runMonitor (instruction_pane_id : Option String) (goals : List ExerciseGoal)
    (st : LoopState) : List (Option String) → MonitorOutcome
  | [] => MonitorOutcome.incomplete st
  | r :: rest =>
    match monitorStep instruction_pane_id goals st (read_vim_state_from_file r) with
    | StepOutcome.panicked => MonitorOutcome.panicked
    | StepOutcome.failed st' e => MonitorOutcome.failed st' e
    | StepOutcome.ok _ true => MonitorOutcome.completed
    | StepOutcome.ok st' false => runMonitor instruction_pane_id goals st' rest

/-- The progression state right after `start_exercise`: index 0 and an
all-false completion vector. -/
def initLoopState (goals : List ExerciseGoal) : LoopState :=
  ⟨0, List.replicate goals.length false⟩

/-- `monitor_progress` from `src/continuous_session.rs` (lines 363-444),
started on a freshly started exercise. Note that the exercise's
`flow_type` is never consulted by the loop. -/
def monitor_progress (instruction_pane_id : Option String)
    (exercise : ContinuousExercise) (reads : List (Option String)) : MonitorOutcome :=
  runMonitor instruction_pane_id exercise.goals (initLoopState exercise.goals) reads

/-- The Sequential progression invariant of claim C1: the completion
vector is index-aligned with the goals, the active index never exceeds
the goal count, and `completed[i]` is `true` exactly for `i` below the
active index. -/
def seqInvariant (goals : List ExerciseGoal) (st : LoopState) : Prop :=
  st.completed_goals.length = goals.length ∧
  st.current_goal_index ≤ goals.length ∧
  ∀ i : Nat, i < st.completed_goals.length →
    st.completed_goals.get? i = some (decide (i < st.current_goal_index))

/-- All goals of an exercise evaluate true against one sample (each must
also convert successfully). -/
def allGoalsSatisfied (exercise : ContinuousExercise) (sample : VimState) : Bool :=
  exercise.goals.all fun g =>
    match convert_goal_definition g with
    | ConvertResult.ok goal => check_goal goal sample
    | _ => false

/-- `(l.set i b).get? i` recovers `b` inside the bounds. -/
theorem list_get?_set_self (l : List Bool) (i : Nat) (b : Bool) (h : i < l.length) :
    (l.set i b).get? i = some b := by
  induction l generalizing i with
  | nil => simp at h
  | cons a as ih =>
    cases i with
    | zero => rfl
    | succ n => exact ih n (Nat.lt_of_succ_lt_succ h)

/-- `List.set` leaves other positions unchanged. -/
theorem list_get?_set_ne (l : List Bool) (i j : Nat) (b : Bool) (h : j ≠ i) :
    (l.set i b).get? j = l.get? j := by
  induction l generalizing i j with
  | nil => rfl
  | cons a as ih =>
    cases i with
    | zero =>
      cases j with
      | zero => exact absurd rfl h
      | succ m => rfl
    | succ n =>
      cases j with
      | zero => rfl
      | succ m => exact ih n m fun hm => h (congrArg Nat.succ hm)

/-- Positions of an all-false replicate read back `false`. -/
theorem list_get?_replicate_false (n i : Nat) (h : i < n) :
    (List.replicate n false).get? i = some false := by
  induction n generalizing i with
  | zero => simp at h
  | succ m ih =>
    cases i with
    | zero => rfl
    | succ k => exact ih k (Nat.lt_of_succ_lt_succ h)


/-- Claim C1: in Sequential flow, the progression state satisfies, after
every transition of the monitoring loop: `completed[i] = true` for all
`i < current_goal_index` and `false` for all `i ≥ current_goal_index`
(and it holds of the initial state); the index changes by at most one per
step, and by exactly one iff a satisfied-goal event occurred on this
sample — no goal is ever skipped; and the loop reports completion on this
step iff the new index equals the number of goals. -/
theorem sequential_invariant_step (instruction_pane_id : Option String)
    (goals : List ExerciseGoal) (st st' : LoopState) (sample : VimState) (dn : Bool)
    (hidx : st.current_goal_index < goals.length)
    (hinv : seqInvariant goals st)
    (hstep : monitorStep instruction_pane_id goals st sample = StepOutcome.ok st' dn) :
    seqInvariant goals (initLoopState goals) ∧
    seqInvariant goals st' ∧
    (st'.current_goal_index = st.current_goal_index ∨
      st'.current_goal_index = st.current_goal_index + 1) ∧
    (st'.current_goal_index = st.current_goal_index + 1 ↔
      satisfiedGoalEvent goals st sample = true) ∧
    (dn = true ↔ st'.current_goal_index = goals.length) := by
  have hinit : seqInvariant goals (initLoopState goals) := by
    refine ⟨?_, Nat.zero_le _, ?_⟩
    · simp [initLoopState]
    · intro i hi
      simp only [initLoopState] at hi ⊢
      rw [List.length_replicate] at hi
      rw [list_get?_replicate_false _ _ hi]
      simp
  obtain ⟨hlen, hle, hget⟩ := hinv
  unfold monitorStep at hstep
  rw [dif_pos hidx] at hstep
  split at hstep
  · cases hstep
  · cases hstep
  · rename_i goal hconv
    have hevent : satisfiedGoalEvent goals st sample = check_goal goal sample := by
      unfold satisfiedGoalEvent
      rw [dif_pos hidx, hconv]
    by_cases hchk : check_goal goal sample = true
    · rw [if_pos hchk] at hstep
      have hinv' : seqInvariant goals
          ⟨st.current_goal_index + 1, st.completed_goals.set st.current_goal_index true⟩ := by
        refine ⟨by simp [List.length_set, hlen], Nat.succ_le_of_lt hidx, ?_⟩
        intro i hi
        simp only [List.length_set] at hi
        by_cases hie : i = st.current_goal_index
        · subst hie
          rw [list_get?_set_self _ _ _ hi]
          simp
        · rw [list_get?_set_ne _ _ _ _ hie, hget i hi]
          show some (decide (i < st.current_goal_index)) =
            some (decide (i < st.current_goal_index + 1))
          congr 1
          apply decide_eq_decide.mpr
          omega
      by_cases hdone : goals.length ≤ st.current_goal_index + 1
      · rw [if_pos hdone] at hstep
        injection hstep with h1 h2
        subst h1
        subst h2
        refine ⟨hinit, hinv', Or.inr rfl, ?_, ?_⟩
        · simp [hevent, hchk]
        · have heq : st.current_goal_index + 1 = goals.length := by omega
          simp [heq]
      · rw [if_neg hdone] at hstep
        cases hpane : instruction_pane_id with
        | none =>
          rw [hpane] at hstep
          cases hstep
        | some p =>
          rw [hpane] at hstep
          injection hstep with h1 h2
          subst h1
          subst h2
          refine ⟨hinit, hinv', Or.inr rfl, ?_, ?_⟩
          · simp [hevent, hchk]
          · have hne : ¬ (st.current_goal_index + 1 = goals.length) := by omega
            simp [hne]
    · rw [if_neg hchk] at hstep
      injection hstep with h1 h2
      subst h1
      subst h2
      refine ⟨hinit, ⟨hlen, hle, hget⟩, Or.inl rfl, ?_, ?_⟩
      · rw [hevent]
        constructor
        · intro hplus
          omega
        · intro htrue
          exact absurd htrue hchk
      · have hne : ¬ (st.current_goal_index = goals.length) := by omega
        simp [hne]

/-- Witness for C1: one step on a one-goal exercise, from the initial
state with a satisfying sample, yields the state with index 1 and
completion vector `[true]`, which satisfies the Sequential invariant. -/
theorem sequential_invariant_step_witness :
    seqInvariant [⟨"position", Json.arr [Json.num 0, Json.num 0], "origin", none⟩]
      ⟨1, [true]⟩ :=
  (sequential_invariant_step (some "%0")
      [⟨"position", Json.arr [Json.num 0, Json.num 0], "origin", none⟩]
      ⟨0, [false]⟩ ⟨1, [true]⟩ defaultVimState true
      (by decide) ⟨rfl, Nat.zero_le _, by decide⟩ rfl).2.1

/-- A Parallel-flow exercise with two cursor-position goals, at the origin
and at (1,1). -/
def parallelExercise : ContinuousExercise :=
  ⟨"parallel test", "satisfy both goals in one sample", ["hello"],
    [⟨"position", Json.arr [Json.num 0, Json.num 0], "cursor at origin", none⟩,
     ⟨"position", Json.arr [Json.num 1, Json.num 1], "cursor at (1,1)", none⟩],
    FlowType.Parallel⟩

/-- Two successive status-file reads: cursor at (0,0), then at (1,1)
(the wire format is 1-based). No single one of them satisfies both goals
of `parallelExercise`. -/
def parallelReads : List (Option String) :=
  [some "LINE:1,COL:1,MODE:n,DETAILED:n", some "LINE:2,COL:2,MODE:n,DETAILED:n"]

/-- Claim C9 (exhibiting the divergence): `monitor_progress` never
consults the exercise's flow type, so a Parallel exercise is checked one
goal at a time against successive samples: on `parallelReads` the
controller reaches `Completed` even though neither sampled state
satisfies all goals simultaneously, contradicting the requirement that
Parallel completion needs every goal true in one and the same sample. -/
theorem parallel_flow_not_simultaneous :
    parallelExercise.flow_type = FlowType.Parallel ∧
    parallelReads.length = 2 ∧
    monitor_progress (some "%0") parallelExercise parallelReads =
      MonitorOutcome.completed ∧
    allGoalsSatisfied parallelExercise
      (read_vim_state_from_file (some "LINE:1,COL:1,MODE:n,DETAILED:n")) = false ∧
    allGoalsSatisfied parallelExercise
      (read_vim_state_from_file (some "LINE:2,COL:2,MODE:n,DETAILED:n")) = false :=
  ⟨rfl, rfl, rfl, rfl, rfl⟩
